import Mathlib

/-!
Verification development for the FlexBar Apple Music plugin.

The JavaScript sources are shallowly embedded as pure Lean functions:

* `src/cache.js`      → `TrackCache`, `updateTrackCache`, `clearTrackCache`,
                        `isCacheValid`, `updatePositionInCache`
* `src/utils.js`      → `executeAppleMusicCommand`, `ifDeviceConnected`
* `music_control.js`  → `getTrackInfoWithAppleScript`, `togglePlayPause`,
                        `nextTrack`, `previousTrack`, `setPlaybackPosition`
* `interval-utils.js` → `setManagedInterval`, `clearManagedInterval`
* `plugin.js`         → `computeTrackInfoRender` (the pure render portion of
                        `updateTrackInfo`), `updateTrackInfo`, `handlePluginData`
                        (the `plugin.data` listener), `handlePluginAlive`
                        (the `plugin.alive` listener), `safeDraw`

External I/O (AppleScript execution, artwork file processing, draw calls) is
represented by oracle arguments (`Except` values model a call that may throw)
and by an explicit list of emitted `Effect`s.  JavaScript `null`/`undefined`
object fields are modelled with `Option`; JavaScript truthiness of strings and
numbers is modelled explicitly by the `js*` helper functions.  Numbers are
modelled by `ℚ` (playback positions/durations) and `Int` (millisecond
timestamps); no property below depends on floating-point rounding.
-/

namespace AppleMusic

/-- JS truthiness of a nullable string: `null` and `""` are falsy. -/
def jsTruthyStr : Option String → Bool
  | none => false
  | some s => s ≠ ""

/-- JS `s || null` on a nullable string (used by the cache replacement). -/
def jsOrNullStr (s : Option String) : Option String :=
  if jsTruthyStr s then s else none

/-- JS `s || d` where `d` is a non-empty string default. -/
def jsOrStr (s : Option String) (d : String) : String :=
  match s with
  | some t => if t = "" then d else t
  | none => d

/-- JS `x || d` on numbers (`0` is falsy). -/
def jsOrQ (x d : ℚ) : ℚ := if x = 0 then d else x

/-- JS `x || d` on nullable integers (`0` is falsy). -/
def jsOrInt (x : Option Int) (d : Int) : Int :=
  match x with
  | some n => if n = 0 then d else n
  | none => d

/-- JS template interpolation of a nullable string (`null` prints as `"null"`). -/
def jsTemplateStr (s : Option String) : String := s.getD "null"

/-! ## `src/cache.js` -/

/-- The module-level `trackCache` object of `cache.js`. -/
structure TrackCache where
  trackId : Option String
  title : Option String
  artist : Option String
  album : Option String
  artwork : Option String
  position : ℚ
  duration : ℚ
  isPlaying : Bool
  timestamp : Int
  deriving Repr, DecidableEq

/-- The initial value of `trackCache` in `cache.js`. -/
def initialTrackCache : TrackCache :=
  { trackId := none, title := none, artist := none, album := none,
    artwork := none, position := 0, duration := 0, isPlaying := false,
    timestamp := 0 }

/-- `getCachedTrackInfo()` returns a shallow copy of the cache; in the pure
model a copy is the value itself. -/
def getCachedTrackInfo (c : TrackCache) : TrackCache := c

/-- The 5-minute validity window (`5 * 60 * 1000` ms) of `cache.js`. -/
def VALIDITY_WINDOW_MS : Int := 5 * 60 * 1000

/-- A track-info object as produced by `music_control.js` and consumed by
`updateTrackCache`.  Fields that a given code path does not set are `none`
(JS `undefined`); nullable strings are `Option String`. -/
structure TrackInfo where
  trackId : Option String := none
  title : Option String := none
  artist : Option String := none
  album : Option String := none
  artwork : Option String := none
  position : ℚ := 0
  duration : ℚ := 0
  isPlaying : Option Bool := none
  isRunning : Option Bool := none
  timestamp : Option Int := none
  deriving Repr, DecidableEq

/-- `updateTrackCache(trackInfo, trackId)` from `cache.js`: returns the JS
boolean result together with the new cache value.  `now` models `Date.now()`. -/
def updateTrackCache (c : TrackCache) (trackInfo : Option TrackInfo)
    (trackId : Option String) (now : Int) : Bool × TrackCache :=
  match trackInfo with
  | none => (false, c)
  | some ti =>
    if jsTruthyStr trackId ∧ trackId = c.trackId ∧
        ¬ (now - c.timestamp > VALIDITY_WINDOW_MS) then
      (false,
        { c with
          position := jsOrQ ti.position c.position,
          isPlaying := ti.isPlaying.getD c.isPlaying })
    else
      (true,
        { trackId := jsOrNullStr trackId,
          title := jsOrNullStr ti.title,
          artist := jsOrNullStr ti.artist,
          album := jsOrNullStr ti.album,
          artwork := jsOrNullStr ti.artwork,
          position := jsOrQ ti.position 0,
          duration := jsOrQ ti.duration 0,
          isPlaying := ti.isPlaying.getD false,
          timestamp := now })

/-- `clearTrackCache()` from `cache.js`. -/
def clearTrackCache : TrackCache := initialTrackCache

/-- `isCacheValid()` from `cache.js`. -/
def isCacheValid (c : TrackCache) (now : Int) : Bool :=
  if !jsTruthyStr c.trackId then false
  else decide (now - c.timestamp ≤ VALIDITY_WINDOW_MS)

/-- `updatePositionInCache(position, isPlaying)` from `cache.js`. -/
def updatePositionInCache (c : TrackCache) (position : ℚ)
    (isPlaying : Option Bool) : TrackCache :=
  if jsTruthyStr c.trackId then
    { c with
      position := position,
      isPlaying := isPlaying.getD c.isPlaying }
  else c

/-! ## `music_control.js` -/

/-- The result shape of `getCurrentTrackId()`. -/
structure TrackIdInfo where
  trackId : Option String
  position : ℚ
  duration : ℚ
  isPlaying : Bool
  isRunning : Bool
  deriving Repr, DecidableEq

/-- The values `getCurrentTrackId()` can actually produce: the default
response (player not running, or the identity script threw), the explicit
`"no_track"` row the script returns when nothing is playing, or a playing row
whose `trackId` is the player track id rendered as a string (a numeric id,
hence distinct from the `"no_track"` sentinel) with `isPlaying` and
`isRunning` both true. -/
def TrackIdInfo.WF (p : TrackIdInfo) : Prop :=
  p = ⟨none, 0, 0, false, false⟩ ∨
  p = ⟨some "no_track", 0, 0, false, true⟩ ∨
  (∃ id, id ≠ "no_track" ∧ p.trackId = some id ∧
    p.isPlaying = true ∧ p.isRunning = true)

/-- The data produced by the expensive metadata/artwork step of
`getTrackInfoWithAppleScript` (the second AppleScript call plus the artwork
file handling of lines 177–193): track name, artist, album and the computed
`artworkBase64` string. -/
structure FetchedMeta where
  title : String
  artist : String
  album : String
  artwork : String
  deriving Repr, DecidableEq

/-- Result of one `getTrackInfoWithAppleScript()` call: the returned value,
the cache afterwards, and whether the expensive fetch step was invoked. -/
structure QueryResult where
  result : Option TrackInfo
  cache : TrackCache
  fetchInvoked : Bool
  deriving Repr, DecidableEq

/-- `getTrackInfoWithAppleScript()` from `music_control.js`.  `probe` is the
result of the lightweight identity probe `getCurrentTrackId()`; `fetch` is
the expensive metadata/artwork step, `Except.error` modelling a throw (the
only throwing step inside the outer `try`, since `getCurrentTrackId` catches
its own errors and the artwork file handling has its own inner `catch`). -/
def getTrackInfoWithAppleScript (probe : TrackIdInfo)
    (fetch : Except Unit FetchedMeta) (c : TrackCache) (now : Int) :
    QueryResult :=
  if probe.trackId = some "no_track" ∨ probe.isPlaying = false ∨
      probe.isRunning = false then
    { result := some
        { title := some "No track is playing", artist := some "",
          album := some "", artwork := some "No artwork available",
          position := 0, duration := 0,
          isPlaying := some probe.isPlaying,
          isRunning := some probe.isRunning },
      cache := c, fetchInvoked := false }
  else
    let cachedInfo := getCachedTrackInfo c
    if probe.trackId = cachedInfo.trackId ∧ isCacheValid c now then
      { result := some
          { trackId := cachedInfo.trackId, title := cachedInfo.title,
            artist := cachedInfo.artist, album := cachedInfo.album,
            artwork := cachedInfo.artwork,
            position := probe.position, duration := probe.duration,
            isPlaying := some probe.isPlaying,
            isRunning := some probe.isRunning,
            timestamp := some cachedInfo.timestamp },
        cache := c, fetchInvoked := false }
    else
      match fetch with
      | .error _ => { result := none, cache := c, fetchInvoked := true }
      | .ok f =>
        let trackInfo : TrackInfo :=
          { title := some f.title, artist := some f.artist,
            album := some f.album, artwork := some f.artwork,
            position := probe.position, duration := probe.duration,
            isPlaying := some probe.isPlaying,
            isRunning := some probe.isRunning }
        { result := some trackInfo,
          cache := (updateTrackCache c (some trackInfo) probe.trackId now).2,
          fetchInvoked := true }

/-! ## `src/utils.js` transport commands -/

/-- `executeAppleMusicCommand(command, errorMessage)` from `utils.js` (built
on `safeExecute`): on success of the underlying AppleScript call it clears
the track cache and yields `true`; on a throw it yields `false` and leaves
the cache alone.  `run` is the underlying `runAppleScript` call. -/
def executeAppleMusicCommand (run : Except Unit Unit) (c : TrackCache) :
    Bool × TrackCache :=
  match run with
  | .ok _ => (true, clearTrackCache)
  | .error _ => (false, c)

/-- `togglePlayPause()` from `music_control.js`. -/
def togglePlayPause (run : Except Unit Unit) (c : TrackCache) :
    Bool × TrackCache :=
  executeAppleMusicCommand run c

/-- `nextTrack()` from `music_control.js`. -/
def nextTrack (run : Except Unit Unit) (c : TrackCache) : Bool × TrackCache :=
  executeAppleMusicCommand run c

/-- `previousTrack()` from `music_control.js`. -/
def previousTrack (run : Except Unit Unit) (c : TrackCache) :
    Bool × TrackCache :=
  executeAppleMusicCommand run c

/-- `setPlaybackPosition(position)` from `music_control.js`; the position is
only interpolated into the command text. -/
def setPlaybackPosition (_position : ℚ) (run : Except Unit Unit)
    (c : TrackCache) : Bool × TrackCache :=
  executeAppleMusicCommand run c

/-! ## `interval-utils.js` -/

/-- An entry of the `updateIntervals` table: the (opaque) callback tag and
the interval delay handed to `setInterval`. -/
structure TimerEntry where
  callback : String
  delay : Int
  deriving Repr, DecidableEq

/-- The process-wide `updateIntervals` object, modelled as an association
list keyed by timer name. -/
abbrev IntervalTable := List (String × TimerEntry)

/-- `setManagedInterval(id, callback, delay)` from `interval-utils.js`:
already-existing intervals are ignored. -/
def setManagedInterval (t : IntervalTable) (id : String) (cb : String)
    (delay : Int) : IntervalTable :=
  if (t.lookup id).isSome then t
  else (id, ⟨cb, delay⟩) :: t

/-- `clearManagedInterval(id)` from `interval-utils.js`. -/
def clearManagedInterval (t : IntervalTable) (id : String) : IntervalTable :=
  if (t.lookup id).isSome then t.filter (fun p => p.1 != id) else t

/-- JS object assignment `obj[id] = v` (insert or overwrite), used by the
raw `updateIntervals[...] = setInterval(...)` writes in `plugin.js`. -/
def jsObjSet (t : IntervalTable) (id : String) (v : TimerEntry) :
    IntervalTable :=
  (id, v) :: t.filter (fun p => p.1 != id)

/-! ## `plugin.js`: key style/data and the pure render computation -/

/-- The style fields of a key that `plugin.js` reads or writes.  `none`
models a JS field that is not set. -/
structure KeyStyle where
  icon : Option String := none
  showIcon : Option Bool := none
  showTitle : Option Bool := none
  showProgress : Option Bool := none
  progress : Option ℚ := none
  progressBarColor : Option String := none
  foregroundOutline : Option Bool := none
  deriving Repr, DecidableEq

/-- The `key.data` configuration fields that `plugin.js` reads. -/
structure KeyData where
  showProgress : Option Bool := none
  progressBarColor : Option String := none
  showArtwork : Option Bool := none
  enableSmoothProgress : Option Bool := none
  progressUpdateInterval : Option Int := none
  deriving Repr, DecidableEq

/-- `String.startsWith`, stated on the underlying character lists so that it
evaluates by kernel reduction. -/
def strStartsWith (s pre : String) : Bool :=
  pre.data.isPrefixOf s.data

/-- The artwork-presence test of `updateTrackInfo`:
`trackInfo.artwork && trackInfo.artwork.startsWith("data:image")`. -/
def artworkIsDataImage (a : Option String) : Bool :=
  jsTruthyStr a && strStartsWith (a.getD "") "data:image"

/-- The pure portion of `updateTrackInfo` in `plugin.js` (lines 95–145):
from the query result, the key's current style and its `key.data`
configuration, compute the new style and the new title. -/
def computeTrackInfoRender (trackInfo : Option TrackInfo) (style : KeyStyle)
    (data : KeyData) : KeyStyle × String :=
  match trackInfo with
  | none =>
    ({ style with
        showIcon := some true, showTitle := some true,
        icon := some "mdi mdi-music-off", showProgress := some false },
      "No track info")
  | some ti =>
    if ti.title ≠ some "No track is playing" then
      let newTitle := jsTemplateStr ti.title ++ "\n" ++ jsTemplateStr ti.artist
      let s1 : KeyStyle := { style with showTitle := some true }
      let s2 : KeyStyle :=
        if data.showProgress ≠ some false then
          { s1 with
            progress :=
              some (if ti.duration > 0 then ti.position / ti.duration else 0),
            showProgress := some true,
            progressBarColor := some (jsOrStr data.progressBarColor "#1ED760") }
        else s1
      let s3 : KeyStyle :=
        if artworkIsDataImage ti.artwork then
          { s2 with
            showIcon := some (data.showArtwork != some false),
            icon := ti.artwork }
        else
          { s2 with showIcon := some true, icon := some "mdi mdi-music" }
      (s3, newTitle)
    else
      ({ style with
          showIcon := some true, showTitle := some true,
          icon := some "mdi mdi-music-off", showProgress := some false },
        "No track playing")

/-! ## `plugin.js`: state, effects and event handlers -/

/-- A key object as handled by `plugin.js`. -/
structure Key where
  uid : String
  cid : String
  title : String
  style : KeyStyle
  data : KeyData
  deriving Repr, DecidableEq

/-- The process-wide mutable state of the plugin: the track cache, the
`updateIntervals` table, the `keyData` registry, and the
`connectedDevices` set (modelled as a list of serial numbers). -/
structure PluginState where
  cache : TrackCache
  updateIntervals : IntervalTable
  keyData : List (String × Key)
  connectedDevices : List String
  deriving Repr, DecidableEq

/-- Outward-facing actions emitted by the handlers: a transport command sent
to the player, or a `plugin.draw` call for a key on a device. -/
inductive Effect where
  | sendCommand (cmd : String)
  | draw (serialNumber : String) (keyUid : String)
  deriving Repr, DecidableEq

/-- The plugin uuid from `manifest.json`. -/
def PLUGIN_UUID : String := "com.jagk.apple_music"

/-- JS object assignment `keyData[uid] = key`. -/
def jsObjSetKey (t : List (String × Key)) (id : String) (v : Key) :
    List (String × Key) :=
  (id, v) :: t.filter (fun p => p.1 != id)

/-- JS `Set.add`. -/
def jsSetAdd (l : List String) (x : String) : List String :=
  if l.contains x then l else x :: l

/-- `ifDeviceConnected` from `utils.js` specialised to the draw guard of
`safeDraw` in `plugin.js`: the draw call is emitted only when the serial
number is in the connected-device set. -/
def safeDraw (connectedDevices : List String) (serialNumber : String)
    (key : Key) : List Effect :=
  if connectedDevices.contains serialNumber then
    [Effect.draw serialNumber key.uid]
  else []

/-- `updateTrackInfo(serialNumber, key)` from `plugin.js`: guard on the
connected-device set, run the full-track query, compute the new style/title,
store them on the key, and draw.  The key is addressed by uid, mirroring the
aliasing of the `keyData[uid]` object in the source. -/
def updateTrackInfo (st : PluginState) (serialNumber : String)
    (keyUid : String) (probe : TrackIdInfo) (fetch : Except Unit FetchedMeta)
    (now : Int) : PluginState × List Effect :=
  if !(st.connectedDevices.contains serialNumber) then (st, [])
  else
    match st.keyData.lookup keyUid with
    | none => (st, [])
    | some key =>
      let q := getTrackInfoWithAppleScript probe fetch st.cache now
      let r := computeTrackInfoRender q.result key.style key.data
      let key2 : Key := { key with style := r.1, title := r.2 }
      let st2 : PluginState :=
        { st with cache := q.cache,
                  keyData := jsObjSetKey st.keyData keyUid key2 }
      (st2, safeDraw st2.connectedDevices serialNumber key2)

/-- `updateTrackInfoKey(serialNumber)` from `plugin.js`: find the first
track-info key in `keyData` and update it. -/
def updateTrackInfoKey (st : PluginState) (serialNumber : String)
    (probe : TrackIdInfo) (fetch : Except Unit FetchedMeta) (now : Int) :
    PluginState × List Effect :=
  match st.keyData.find? (fun p => p.2.cid == PLUGIN_UUID ++ ".trackinfo") with
  | none => (st, [])
  | some p => updateTrackInfo st serialNumber p.1 probe fetch now

/-- The external inputs consumed during one `plugin.data` event: the
configured update rate, the transport command execution, the identity probe,
the expensive fetch, and the current time. -/
structure DataOracles where
  updateRate : Int
  commandRun : Except Unit Unit
  probe : TrackIdInfo
  fetch : Except Unit FetchedMeta
  now : Int

/-- The `plugin.on("plugin.data")` handler of `plugin.js`: key lookup,
connected-device guard, then dispatch on the component id. -/
def handlePluginData (st : PluginState) (serialNumber : String)
    (pressedUid : String) (o : DataOracles) : PluginState × List Effect :=
  match st.keyData.lookup pressedUid with
  | none => (st, [])
  | some key =>
    if !(st.connectedDevices.contains serialNumber) then (st, [])
    else if key.cid = PLUGIN_UUID ++ ".trackinfo" then
      let cache2 := (togglePlayPause o.commandRun st.cache).2
      let st2 : PluginState := { st with cache := cache2 }
      let r := updateTrackInfo st2 serialNumber pressedUid o.probe o.fetch o.now
      let mainEntry : TimerEntry :=
        { callback := "updateTrackInfo", delay := o.updateRate }
      let st4 : PluginState :=
        { r.1 with updateIntervals :=
            jsObjSet r.1.updateIntervals key.uid mainEntry }
      let st5 : PluginState :=
        if key.data.enableSmoothProgress ≠ some false then
          { st4 with updateIntervals :=
              (jsObjSet st4.updateIntervals (key.uid ++ "_progress")
                (TimerEntry.mk "progressOnly"
                  (jsOrInt key.data.progressUpdateInterval 1000))) }
        else st4
      (st5, Effect.sendCommand "playpause" :: r.2)
    else if key.cid = PLUGIN_UUID ++ ".playpause" ∨
        key.cid = PLUGIN_UUID ++ ".next" ∨
        key.cid = PLUGIN_UUID ++ ".previous" then
      let cmd : String :=
        if key.cid = PLUGIN_UUID ++ ".playpause" then "playpause"
        else if key.cid = PLUGIN_UUID ++ ".next" then "next track"
        else "previous track"
      let cache2 := (executeAppleMusicCommand o.commandRun st.cache).2
      let st2 : PluginState := { st with cache := cache2 }
      let r := updateTrackInfoKey st2 serialNumber o.probe o.fetch o.now
      (r.1, Effect.sendCommand cmd :: r.2)
    else (st, [])

/-- The external inputs consumed during one `plugin.alive` event. -/
structure AliveOracles where
  updateRate : Int
  probe : TrackIdInfo
  fetch : Except Unit FetchedMeta
  now : Int

/-- The per-key body of the `plugin.on("plugin.alive")` loop in `plugin.js`:
register the key in `keyData`, clear any existing primary and progress
intervals, then provision timers only for the track-info component id (the
switch has no other case). -/
def processAliveKey (st : PluginState) (serialNumber : String) (key : Key)
    (o : AliveOracles) : PluginState × List Effect :=
  let st1 : PluginState :=
    { st with keyData := jsObjSetKey st.keyData key.uid key }
  let st2 : PluginState :=
    { st1 with updateIntervals :=
        clearManagedInterval st1.updateIntervals key.uid }
  let st3 : PluginState :=
    { st2 with updateIntervals :=
        clearManagedInterval st2.updateIntervals (key.uid ++ "_progress") }
  if key.cid = PLUGIN_UUID ++ ".trackinfo" then
    let key2 : Key :=
      { key with
        title := "Nothing playing",
        style := { key.style with
          showTitle := some true, foregroundOutline := some false,
          icon := some "mdi mdi-music", showIcon := some true } }
    let st4 : PluginState :=
      { st3 with keyData := jsObjSetKey st3.keyData key.uid key2 }
    let e1 := safeDraw st4.connectedDevices serialNumber key2
    let r := updateTrackInfo st4 serialNumber key.uid o.probe o.fetch o.now
    let st6 : PluginState :=
      { r.1 with updateIntervals :=
          (setManagedInterval r.1.updateIntervals key.uid
            "updateTrackInfo" o.updateRate) }
    let st7 : PluginState :=
      { st6 with updateIntervals :=
          (jsObjSet st6.updateIntervals (key.uid ++ "_progress")
            (TimerEntry.mk "progressOnly" 1000)) }
    (st7, e1 ++ r.2)
  else
    (st3, [])

/-- The `plugin.on("plugin.alive")` handler of `plugin.js`: mark the device
connected, then process each declared key in order. -/
def handlePluginAlive (st : PluginState) (serialNumber : String)
    (keys : List Key) (o : AliveOracles) : PluginState × List Effect :=
  let st1 : PluginState :=
    { st with connectedDevices := jsSetAdd st.connectedDevices serialNumber }
  keys.foldl
    (fun acc key =>
      let r := processAliveKey acc.1 serialNumber key o
      (r.1, acc.2 ++ r.2))
    (st1, [])

/-! ## Helper lemmas -/

lemma jsTruthyStr_eq_true_iff (o : Option String) :
    jsTruthyStr o = true ↔ ∃ s, o = some s ∧ s ≠ "" := by
  cases o <;> simp [jsTruthyStr]

lemma isCacheValid_eq_true_iff (c : TrackCache) (now : Int) :
    isCacheValid c now = true ↔
      jsTruthyStr c.trackId = true ∧ now - c.timestamp ≤ VALIDITY_WINDOW_MS := by
  unfold isCacheValid
  by_cases h : jsTruthyStr c.trackId <;> simp [h]

/-- The `updateTrackCache` branch taken when the given id matches the cached
id and the entry has not expired: only position and play state are touched. -/
lemma updateTrackCache_hit (c : TrackCache) (ti : TrackInfo)
    (trackId : Option String) (now : Int)
    (hid : trackId = c.trackId) (hvalid : isCacheValid c now = true) :
    updateTrackCache c (some ti) trackId now =
      (false,
        { c with
          position := jsOrQ ti.position c.position,
          isPlaying := ti.isPlaying.getD c.isPlaying }) := by
  rw [isCacheValid_eq_true_iff] at hvalid
  simp only [updateTrackCache]
  rw [if_pos ⟨by rw [hid]; exact hvalid.1, hid, not_lt.mpr hvalid.2⟩]

/-- The `updateTrackCache` branch taken in every other case (with a non-null
snapshot): the entry is replaced wholesale and the timestamp is reset. -/
lemma updateTrackCache_miss (c : TrackCache) (ti : TrackInfo)
    (trackId : Option String) (now : Int)
    (h : ¬ (trackId = c.trackId ∧ isCacheValid c now = true)) :
    updateTrackCache c (some ti) trackId now =
      (true,
        { trackId := jsOrNullStr trackId,
          title := jsOrNullStr ti.title,
          artist := jsOrNullStr ti.artist,
          album := jsOrNullStr ti.album,
          artwork := jsOrNullStr ti.artwork,
          position := jsOrQ ti.position 0,
          duration := jsOrQ ti.duration 0,
          isPlaying := ti.isPlaying.getD false,
          timestamp := now }) := by
  simp only [updateTrackCache]
  rw [if_neg]
  rintro ⟨ht, heq, hne⟩
  exact h ⟨heq,
    (isCacheValid_eq_true_iff c now).mpr ⟨heq ▸ ht, not_lt.mp hne⟩⟩

/-! ## Claim theorems: cache (`src/cache.js`) -/

/-- C2: for a cache merge with a non-null snapshot, if the given trackId
equals the cached trackId and the cache is valid, only the position and
isPlaying fields change (title, artist, album, artwork, timestamp and
trackId are untouched) and the call returns `false`; in every other case the
whole entry is replaced from the snapshot, the timestamp is reset to the
current time, and the call returns `true`. -/
theorem updateTrackCache_spec (c : TrackCache) (ti : TrackInfo)
    (trackId : Option String) (now : Int) :
    (trackId = c.trackId ∧ isCacheValid c now = true →
      updateTrackCache c (some ti) trackId now =
        (false,
          { c with
            position := jsOrQ ti.position c.position,
            isPlaying := ti.isPlaying.getD c.isPlaying })) ∧
    (¬ (trackId = c.trackId ∧ isCacheValid c now = true) →
      updateTrackCache c (some ti) trackId now =
        (true,
          { trackId := jsOrNullStr trackId,
            title := jsOrNullStr ti.title,
            artist := jsOrNullStr ti.artist,
            album := jsOrNullStr ti.album,
            artwork := jsOrNullStr ti.artwork,
            position := jsOrQ ti.position 0,
            duration := jsOrQ ti.duration 0,
            isPlaying := ti.isPlaying.getD false,
            timestamp := now })) :=
  ⟨fun h => updateTrackCache_hit c ti trackId now h.1 h.2,
   fun h => updateTrackCache_miss c ti trackId now h⟩

theorem updateTrackCache_spec_witness :
    updateTrackCache
        { trackId := some "42", title := some "T", artist := some "A",
          album := some "B", artwork := some "W", position := 3,
          duration := 9, isPlaying := true, timestamp := 0 }
        (some { position := 5, isPlaying := some false })
        (some "42") 1000 =
      (false,
        { trackId := some "42", title := some "T", artist := some "A",
          album := some "B", artwork := some "W", position := 5,
          duration := 9, isPlaying := false, timestamp := 0 }) ∧
    updateTrackCache
        { trackId := some "42", title := some "T", artist := some "A",
          album := some "B", artwork := some "W", position := 3,
          duration := 9, isPlaying := true, timestamp := 0 }
        (some { title := some "N", position := 5, duration := 7,
                isPlaying := some true })
        (some "77") 1000 =
      (true,
        { trackId := some "77", title := some "N", artist := none,
          album := none, artwork := none, position := 5,
          duration := 7, isPlaying := true, timestamp := 1000 }) := by
  refine ⟨?_, ?_⟩
  · have h := (updateTrackCache_spec
      { trackId := some "42", title := some "T", artist := some "A",
        album := some "B", artwork := some "W", position := 3,
        duration := 9, isPlaying := true, timestamp := 0 }
      { position := 5, isPlaying := some false } (some "42") 1000).1
      ⟨rfl, by decide⟩
    simpa [jsOrQ] using h
  · have h := (updateTrackCache_spec
      { trackId := some "42", title := some "T", artist := some "A",
        album := some "B", artwork := some "W", position := 3,
        duration := 9, isPlaying := true, timestamp := 0 }
      { title := some "N", position := 5, duration := 7,
        isPlaying := some true } (some "77") 1000).2
      (by rintro ⟨h, -⟩; exact absurd h (by decide))
    simpa [jsOrQ, jsOrNullStr, jsTruthyStr] using h

/-- C8: a position-only cache update is a no-op when no track is cached;
otherwise it updates exactly the position and isPlaying fields, never
touches the timestamp, and never changes the validity classification.
(A cached id is never the empty string: `updateTrackCache` stores
`trackId || null`, so the `s ≠ ""` hypothesis covers every reachable
cache.) -/
theorem updatePositionInCache_spec (c : TrackCache) (pos : ℚ)
    (ip : Option Bool) :
    (c.trackId = none → updatePositionInCache c pos ip = c) ∧
    (∀ s, c.trackId = some s → s ≠ "" →
      updatePositionInCache c pos ip =
        { c with position := pos, isPlaying := ip.getD c.isPlaying }) ∧
    (∀ now, isCacheValid (updatePositionInCache c pos ip) now =
      isCacheValid c now) := by
  refine ⟨?_, ?_, ?_⟩
  · intro h
    unfold updatePositionInCache
    rw [if_neg]
    simp [h, jsTruthyStr]
  · intro s hs hne
    unfold updatePositionInCache
    rw [if_pos]
    simp [hs, jsTruthyStr, hne]
  · intro now
    unfold updatePositionInCache
    by_cases h : jsTruthyStr c.trackId = true
    · rw [if_pos h]
      simp [isCacheValid]
    · rw [if_neg (by simpa using h)]

theorem updatePositionInCache_spec_witness :
    updatePositionInCache
        { trackId := some "42", title := some "T", artist := some "A",
          album := some "B", artwork := some "W", position := 3,
          duration := 9, isPlaying := true, timestamp := 0 }
        11 (some false) =
      { trackId := some "42", title := some "T", artist := some "A",
        album := some "B", artwork := some "W", position := 11,
        duration := 9, isPlaying := false, timestamp := 0 } := by
  have h := ((updatePositionInCache_spec
    { trackId := some "42", title := some "T", artist := some "A",
      album := some "B", artwork := some "W", position := 3,
      duration := 9, isPlaying := true, timestamp := 0 }
    11 (some false)).2.1) "42" rfl (by decide)
  simpa using h

/-- C10: in the same-track valid-cache branch of the merge, a fresh position
of 0 is discarded (the cached position is kept) while a non-zero fresh
position is applied; a fresh `isPlaying` of `false` is applied, and only an
undefined `isPlaying` keeps the cached value. -/
theorem sameTrack_position_zero_discarded (c : TrackCache) (ti : TrackInfo)
    (trackId : Option String) (now : Int)
    (hid : trackId = c.trackId) (hvalid : isCacheValid c now = true) :
    ((ti.position = 0 →
        (updateTrackCache c (some ti) trackId now).2.position = c.position) ∧
      (ti.position ≠ 0 →
        (updateTrackCache c (some ti) trackId now).2.position = ti.position)) ∧
    ((ti.isPlaying = some false →
        (updateTrackCache c (some ti) trackId now).2.isPlaying = false) ∧
      (ti.isPlaying = none →
        (updateTrackCache c (some ti) trackId now).2.isPlaying =
          c.isPlaying)) := by
  rw [updateTrackCache_hit c ti trackId now hid hvalid]
  refine ⟨⟨?_, ?_⟩, ?_, ?_⟩
  · intro h; simp [jsOrQ, h]
  · intro h; simp [jsOrQ, h]
  · intro h; simp [h]
  · intro h; simp [h]

theorem sameTrack_position_zero_discarded_witness :
    (updateTrackCache
        { trackId := some "42", title := some "T", artist := some "A",
          album := some "B", artwork := some "W", position := 3,
          duration := 9, isPlaying := true, timestamp := 0 }
        (some { position := 0, isPlaying := some false })
        (some "42") 1000).2.position = 3 ∧
    (updateTrackCache
        { trackId := some "42", title := some "T", artist := some "A",
          album := some "B", artwork := some "W", position := 3,
          duration := 9, isPlaying := true, timestamp := 0 }
        (some { position := 0, isPlaying := some false })
        (some "42") 1000).2.isPlaying = false := by
  have h := sameTrack_position_zero_discarded
    { trackId := some "42", title := some "T", artist := some "A",
      album := some "B", artwork := some "W", position := 3,
      duration := 9, isPlaying := true, timestamp := 0 }
    { position := 0, isPlaying := some false } (some "42") 1000
    rfl (by decide)
  exact ⟨h.1.1 rfl, h.2.1 rfl⟩

/-! ## Claim theorems: full-track query and transport commands -/

/-- C1: when the lightweight identity probe reports a trackId equal to the
currently cached trackId and the cache is valid, the expensive
metadata/artwork fetch is not performed and the returned snapshot is the
cached entry with position, duration, isPlaying and isRunning replaced by
the freshly probed values (title, artist, album and artwork stay those of
the cached entry, and the cache itself is untouched). -/
theorem getTrackInfo_cacheHit (probe : TrackIdInfo)
    (fetch : Except Unit FetchedMeta) (c : TrackCache) (now : Int)
    (hwf : probe.WF) (hcwf : c.trackId ≠ some "no_track")
    (hid : probe.trackId = c.trackId) (hvalid : isCacheValid c now = true) :
    getTrackInfoWithAppleScript probe fetch c now =
      { result := some
          { trackId := c.trackId, title := c.title, artist := c.artist,
            album := c.album, artwork := c.artwork,
            position := probe.position, duration := probe.duration,
            isPlaying := some probe.isPlaying,
            isRunning := some probe.isRunning,
            timestamp := some c.timestamp },
        cache := c, fetchInvoked := false } := by
  obtain ⟨s, hs, -⟩ := (jsTruthyStr_eq_true_iff c.trackId).mp
    ((isCacheValid_eq_true_iff c now).mp hvalid).1
  rcases hwf with h | h | ⟨id, hidne, hpid, hp, hr⟩
  · rw [h] at hid
    rw [← hid] at hs
    exact absurd hs (by simp)
  · rw [h] at hid
    exact absurd hid.symm hcwf
  · have hg1 : ¬ (probe.trackId = some "no_track" ∨
        probe.isPlaying = false ∨ probe.isRunning = false) := by
      push_neg
      refine ⟨?_, by simp [hp], by simp [hr]⟩
      rw [hpid]
      simpa using hidne
    simp only [getTrackInfoWithAppleScript, getCachedTrackInfo]
    rw [if_neg hg1, if_pos ⟨hid, hvalid⟩]

theorem getTrackInfo_cacheHit_witness :
    getTrackInfoWithAppleScript ⟨some "42", 10, 200, true, true⟩ (.error ())
        { trackId := some "42", title := some "T", artist := some "A",
          album := some "B", artwork := some "W", position := 3,
          duration := 9, isPlaying := true, timestamp := 0 }
        1000 =
      { result := some
          { trackId := some "42", title := some "T", artist := some "A",
            album := some "B", artwork := some "W",
            position := 10, duration := 200,
            isPlaying := some true, isRunning := some true,
            timestamp := some 0 },
        cache :=
          { trackId := some "42", title := some "T", artist := some "A",
            album := some "B", artwork := some "W", position := 3,
            duration := 9, isPlaying := true, timestamp := 0 },
        fetchInvoked := false } :=
  getTrackInfo_cacheHit ⟨some "42", 10, 200, true, true⟩ (.error ())
    { trackId := some "42", title := some "T", artist := some "A",
      album := some "B", artwork := some "W", position := 3,
      duration := 9, isPlaying := true, timestamp := 0 }
    1000
    (Or.inr (Or.inr ⟨"42", by decide, rfl, rfl, rfl⟩))
    (by decide) rfl (by decide)

/-- C3: every transport command is the catch-all wrapper
`executeAppleMusicCommand`, a total function returning a boolean (it never
raises): on success of the underlying bridge call it clears the track cache
and returns `true`, on any underlying failure it returns `false` and leaves
the cache alone; and after clearing the cache, a full-track query with a
playing probe always performs the expensive fetch, even for a previously
cached trackId. -/
theorem transportCommand_spec (run : Except Unit Unit) (c : TrackCache) :
    (run = .ok () → executeAppleMusicCommand run c = (true, clearTrackCache)) ∧
    (∀ e, run = .error e → executeAppleMusicCommand run c = (false, c)) ∧
    togglePlayPause run c = executeAppleMusicCommand run c ∧
    nextTrack run c = executeAppleMusicCommand run c ∧
    previousTrack run c = executeAppleMusicCommand run c ∧
    (∀ p, setPlaybackPosition p run c = executeAppleMusicCommand run c) ∧
    (∀ (probe : TrackIdInfo) (fetch : Except Unit FetchedMeta) (now : Int),
      probe.isPlaying = true → probe.isRunning = true →
      probe.trackId ≠ some "no_track" →
      (getTrackInfoWithAppleScript probe fetch clearTrackCache now).fetchInvoked
        = true) := by
  refine ⟨?_, ?_, rfl, rfl, rfl, fun _ => rfl, ?_⟩
  · intro h
    rw [h]
    rfl
  · intro e h
    rw [h]
    rfl
  · intro probe fetch now hp hr hne
    have hg1 : ¬ (probe.trackId = some "no_track" ∨
        probe.isPlaying = false ∨ probe.isRunning = false) := by
      push_neg
      exact ⟨hne, by simp [hp], by simp [hr]⟩
    have hg2 : ¬ (probe.trackId = (getCachedTrackInfo clearTrackCache).trackId ∧
        isCacheValid clearTrackCache now = true) := by
      rintro ⟨-, hv⟩
      simp [isCacheValid, clearTrackCache, initialTrackCache, jsTruthyStr] at hv
    simp only [getTrackInfoWithAppleScript]
    rw [if_neg hg1, if_neg hg2]
    cases fetch <;> rfl

theorem transportCommand_spec_witness :
    executeAppleMusicCommand (.ok ())
        { trackId := some "42", title := some "T", artist := some "A",
          album := some "B", artwork := some "W", position := 3,
          duration := 9, isPlaying := true, timestamp := 0 } =
      (true, clearTrackCache) ∧
    executeAppleMusicCommand (.error ())
        { trackId := some "42", title := some "T", artist := some "A",
          album := some "B", artwork := some "W", position := 3,
          duration := 9, isPlaying := true, timestamp := 0 } =
      (false,
        { trackId := some "42", title := some "T", artist := some "A",
          album := some "B", artwork := some "W", position := 3,
          duration := 9, isPlaying := true, timestamp := 0 }) ∧
    (getTrackInfoWithAppleScript ⟨some "42", 10, 200, true, true⟩ (.error ())
        clearTrackCache 1000).fetchInvoked = true := by
  refine ⟨?_, ?_, ?_⟩
  · exact (transportCommand_spec (.ok ())
      { trackId := some "42", title := some "T", artist := some "A",
        album := some "B", artwork := some "W", position := 3,
        duration := 9, isPlaying := true, timestamp := 0 }).1 rfl
  · exact (transportCommand_spec (.error ())
      { trackId := some "42", title := some "T", artist := some "A",
        album := some "B", artwork := some "W", position := 3,
        duration := 9, isPlaying := true, timestamp := 0 }).2.1 () rfl
  · exact (transportCommand_spec (.ok ()) clearTrackCache).2.2.2.2.2.2
      ⟨some "42", 10, 200, true, true⟩ (.error ()) 1000 rfl rfl (by decide)

/-- C4: the full-track query returns `null` only when the expensive fetch
step itself throws; whenever the player is not running, no track is
identified, the sentinel `"no_track"` is reported, or nothing is playing,
it returns the non-null canonical snapshot with title "No track is
playing", `isPlaying` false and `isRunning` reflecting the probe. -/
theorem getTrackInfo_error_vs_notPlaying (probe : TrackIdInfo)
    (fetch : Except Unit FetchedMeta) (c : TrackCache) (now : Int)
    (hwf : probe.WF) :
    ((getTrackInfoWithAppleScript probe fetch c now).result = none →
      fetch = .error ()) ∧
    ((probe.isRunning = false ∨ probe.trackId = none ∨
        probe.trackId = some "no_track" ∨ probe.isPlaying = false) →
      (getTrackInfoWithAppleScript probe fetch c now).result =
        some { title := some "No track is playing", artist := some "",
               album := some "", artwork := some "No artwork available",
               position := 0, duration := 0, isPlaying := some false,
               isRunning := some probe.isRunning }) := by
  constructor
  · intro hnone
    cases fetch with
    | error e => cases e; rfl
    | ok f =>
      exfalso
      simp only [getTrackInfoWithAppleScript] at hnone
      split_ifs at hnone
  · intro hdisj
    rcases hwf with h | h | ⟨id, hidne, hpid, hp, hr⟩
    · rw [h]
      rfl
    · rw [h]
      rfl
    · exfalso
      rcases hdisj with h | h | h | h
      · rw [hr] at h
        cases h
      · rw [hpid] at h
        cases h
      · rw [hpid] at h
        exact hidne (Option.some_injective _ h)
      · rw [hp] at h
        cases h

theorem getTrackInfo_error_vs_notPlaying_witness :
    (getTrackInfoWithAppleScript ⟨none, 0, 0, false, false⟩ (.ok ⟨"T", "A", "B", "W"⟩)
        initialTrackCache 0).result =
      some { title := some "No track is playing", artist := some "",
             album := some "", artwork := some "No artwork available",
             position := 0, duration := 0, isPlaying := some false,
             isRunning := some false } :=
  (getTrackInfo_error_vs_notPlaying ⟨none, 0, 0, false, false⟩
      (.ok ⟨"T", "A", "B", "W"⟩) initialTrackCache 0
      (Or.inl rfl)).2 (Or.inl rfl)

/-! ## Helper lemmas: association-list lookups -/

lemma lookup_eq_none_iff {β : Type} (t : List (String × β)) (id : String) :
    t.lookup id = none ↔ id ∉ t.map Prod.fst := by
  induction t with
  | nil => simp [List.lookup]
  | cons hd tl ih =>
    by_cases h : id = hd.1
    · simp [List.lookup, h]
    · have hbe : (id == hd.1) = false := by
        simp [h]
      simp [List.lookup, hbe, ih, h]

lemma lookup_filter_ne {β : Type} (t : List (String × β)) (id : String) :
    (t.filter (fun p => p.1 != id)).lookup id = none := by
  rw [lookup_eq_none_iff]
  intro hmem
  obtain ⟨p, hp, hfst⟩ := List.mem_map.mp hmem
  have := (List.mem_filter.mp hp).2
  rw [hfst] at this
  simp at this

/-! ## Claim theorems: interval scheduler (`interval-utils.js`) -/

/-- C5: on a timer table with no duplicate names, scheduling a name that
already has an active timer is a no-op (the table, hence the original
callback and interval, is unchanged); scheduling an absent name makes it
active and keeps names duplicate-free; cancelling removes the name; two
consecutive schedules with the same name equal a single schedule; and after
either operation every name has at most one entry in the table. -/
theorem scheduler_spec (t : IntervalTable) (id cb cb2 : String) (d d2 : Int)
    (hnodup : (t.map Prod.fst).Nodup) :
    ((t.lookup id).isSome = true → setManagedInterval t id cb d = t) ∧
    (t.lookup id = none →
      (setManagedInterval t id cb d).lookup id = some ⟨cb, d⟩ ∧
      ((setManagedInterval t id cb d).map Prod.fst).Nodup) ∧
    (clearManagedInterval t id).lookup id = none ∧
    setManagedInterval (setManagedInterval t id cb d) id cb2 d2 =
      setManagedInterval t id cb d ∧
    (∀ nm, ((setManagedInterval t id cb d).map Prod.fst).count nm ≤ 1) ∧
    (∀ nm, ((clearManagedInterval t id).map Prod.fst).count nm ≤ 1) := by
  have hsched : ∀ h : t.lookup id = none,
      (setManagedInterval t id cb d).lookup id = some ⟨cb, d⟩ ∧
      ((setManagedInterval t id cb d).map Prod.fst).Nodup := by
    intro h
    unfold setManagedInterval
    rw [if_neg (by simp [h])]
    constructor
    · simp [List.lookup]
    · exact List.nodup_cons.mpr ⟨(lookup_eq_none_iff t id).mp h, hnodup⟩
  refine ⟨?_, hsched, ?_, ?_, ?_, ?_⟩
  · intro h
    unfold setManagedInterval
    rw [if_pos h]
  · unfold clearManagedInterval
    by_cases h : (t.lookup id).isSome = true
    · rw [if_pos h]
      exact lookup_filter_ne t id
    · rw [if_neg h]
      exact Option.not_isSome_iff_eq_none.mp (by simpa using h)
  · by_cases h : (t.lookup id).isSome = true
    · have h1 : setManagedInterval t id cb d = t := by
        unfold setManagedInterval
        rw [if_pos h]
      rw [h1]
      unfold setManagedInterval
      rw [if_pos h]
    · have hn : t.lookup id = none := Option.not_isSome_iff_eq_none.mp (by simpa using h)
      have h1 : setManagedInterval t id cb d = (id, ⟨cb, d⟩) :: t := by
        unfold setManagedInterval
        rw [if_neg (by simp [hn])]
      rw [h1]
      unfold setManagedInterval
      rw [if_pos (by simp [List.lookup])]
  · intro nm
    have : ((setManagedInterval t id cb d).map Prod.fst).Nodup := by
      by_cases h : (t.lookup id).isSome = true
      · unfold setManagedInterval
        rw [if_pos h]
        exact hnodup
      · exact (hsched (Option.not_isSome_iff_eq_none.mp (by simpa using h))).2
    exact List.nodup_iff_count_le_one.mp this nm
  · intro nm
    unfold clearManagedInterval
    by_cases h : (t.lookup id).isSome = true
    · rw [if_pos h]
      calc ((t.filter (fun p => p.1 != id)).map Prod.fst).count nm
          ≤ (t.map Prod.fst).count nm :=
            List.Sublist.count_le ((List.filter_sublist t).map Prod.fst) nm
        _ ≤ 1 := List.nodup_iff_count_le_one.mp hnodup nm
    · rw [if_neg h]
      exact List.nodup_iff_count_le_one.mp hnodup nm

theorem scheduler_spec_witness :
    setManagedInterval [("k1", ⟨"updateTrackInfo", 3000⟩)] "k1" "other" 500 =
      [("k1", ⟨"updateTrackInfo", 3000⟩)] ∧
    (setManagedInterval [("k1", ⟨"updateTrackInfo", 3000⟩)] "k2"
        "progressOnly" 1000).lookup "k2" = some ⟨"progressOnly", 1000⟩ ∧
    (clearManagedInterval [("k1", ⟨"updateTrackInfo", 3000⟩)] "k1").lookup "k1"
      = none := by
  refine ⟨?_, ?_, ?_⟩
  · exact (scheduler_spec [("k1", ⟨"updateTrackInfo", 3000⟩)] "k1" "other"
      "x" 500 7 (by decide)).1 (by decide)
  · exact ((scheduler_spec [("k1", ⟨"updateTrackInfo", 3000⟩)] "k2"
      "progressOnly" "x" 1000 7 (by decide)).2.1 (by decide)).1
  · exact (scheduler_spec [("k1", ⟨"updateTrackInfo", 3000⟩)] "k1" "a"
      "b" 1 2 (by decide)).2.2.1

/-! ## Claim theorems: disconnected-device guard (`plugin.js`) -/

/-- C6: a key-press event for a device whose serial number is not in the
connected-device set sends no transport command, performs no draw, and
leaves the whole plugin state (cache, timers, key data, devices) unchanged;
moreover every draw call is guarded, so a device absent from the connected
set is never drawn to. -/
theorem disconnected_keypress_noop (st : PluginState)
    (serialNumber pressedUid : String) (o : DataOracles)
    (h : serialNumber ∉ st.connectedDevices) :
    handlePluginData st serialNumber pressedUid o = (st, []) ∧
    (∀ (conn : List String) (sn : String) (key : Key),
      sn ∉ conn → safeDraw conn sn key = []) := by
  constructor
  · unfold handlePluginData
    cases hk : st.keyData.lookup pressedUid with
    | none => rfl
    | some key =>
      dsimp only
      rw [if_pos (by simpa using h)]
  · intro conn sn key hc
    unfold safeDraw
    rw [if_neg (by simpa using hc)]

theorem disconnected_keypress_noop_witness :
    handlePluginData
        { cache := initialTrackCache, updateIntervals := [],
          keyData := [("k1",
            { uid := "k1", cid := PLUGIN_UUID ++ ".playpause", title := "",
              style := {}, data := {} })],
          connectedDevices := ["SN-OTHER"] }
        "SN-GONE" "k1"
        { updateRate := 3000, commandRun := .ok (),
          probe := ⟨some "42", 10, 200, true, true⟩,
          fetch := .ok ⟨"T", "A", "B", "W"⟩, now := 0 } =
      ({ cache := initialTrackCache, updateIntervals := [],
         keyData := [("k1",
           { uid := "k1", cid := PLUGIN_UUID ++ ".playpause", title := "",
             style := {}, data := {} })],
         connectedDevices := ["SN-OTHER"] }, []) :=
  (disconnected_keypress_noop
    { cache := initialTrackCache, updateIntervals := [],
      keyData := [("k1",
        { uid := "k1", cid := PLUGIN_UUID ++ ".playpause", title := "",
          style := {}, data := {} })],
      connectedDevices := ["SN-OTHER"] }
    "SN-GONE" "k1"
    { updateRate := 3000, commandRun := .ok (),
      probe := ⟨some "42", 10, 200, true, true⟩,
      fetch := .ok ⟨"T", "A", "B", "W"⟩, now := 0 }
    (by decide)).1

/-! ## Claim theorems: track-info render computation (`plugin.js`) -/

/-- C7 counterexample: with a playing snapshot whose artwork is a data-image
URI and a key config that explicitly disables `showArtwork`, the computed
icon is still the artwork data (with the icon merely hidden), not the
generic `"mdi mdi-music"` icon the claim requires in that case. -/
theorem render_icon_counterexample :
    (computeTrackInfoRender
        (some { title := some "Song", artist := some "Artist",
                artwork := some "data:image/jpeg;base64,QUJD",
                position := 10, duration := 100,
                isPlaying := some true, isRunning := some true })
        {} { showArtwork := some false }).1.icon =
      some "data:image/jpeg;base64,QUJD" ∧
    (computeTrackInfoRender
        (some { title := some "Song", artist := some "Artist",
                artwork := some "data:image/jpeg;base64,QUJD",
                position := 10, duration := 100,
                isPlaying := some true, isRunning := some true })
        {} { showArtwork := some false }).1.icon ≠
      some "mdi mdi-music" ∧
    (computeTrackInfoRender
        (some { title := some "Song", artist := some "Artist",
                artwork := some "data:image/jpeg;base64,QUJD",
                position := 10, duration := 100,
                isPlaying := some true, isRunning := some true })
        {} { showArtwork := some false }).1.showIcon = some false := by
  refine ⟨by decide, by decide, by decide⟩

/-- C7 (amended): the render computation maps a null snapshot to title
"No track info" with the no-music icon and progress explicitly hidden, and a
nothing-playing snapshot to title "No track playing" with the no-music icon
and progress explicitly hidden; otherwise the title is
`"{title}\n{artist}"`; when the artwork is a data-image URI the icon field
is set to the artwork and the icon is shown iff `showArtwork` is not
explicitly disabled, and otherwise the icon is the generic music icon and
shown; progress is set to `position/duration` (0 when the duration is not
positive) and shown when `showProgress` is not explicitly disabled, and both
progress fields are left at their previous style values when it is
explicitly disabled. -/
theorem render_spec (ti : TrackInfo) (style : KeyStyle) (data : KeyData) :
    (computeTrackInfoRender none style data =
      ({ style with
          showIcon := some true, showTitle := some true,
          icon := some "mdi mdi-music-off", showProgress := some false },
        "No track info")) ∧
    (ti.title = some "No track is playing" →
      computeTrackInfoRender (some ti) style data =
        ({ style with
            showIcon := some true, showTitle := some true,
            icon := some "mdi mdi-music-off", showProgress := some false },
          "No track playing")) ∧
    (ti.title ≠ some "No track is playing" →
      ((computeTrackInfoRender (some ti) style data).2 =
          jsTemplateStr ti.title ++ "\n" ++ jsTemplateStr ti.artist) ∧
      (data.showProgress ≠ some false →
        (computeTrackInfoRender (some ti) style data).1.progress =
          some (if ti.duration > 0 then ti.position / ti.duration else 0) ∧
        (computeTrackInfoRender (some ti) style data).1.showProgress =
          some true) ∧
      (data.showProgress = some false →
        (computeTrackInfoRender (some ti) style data).1.progress =
          style.progress ∧
        (computeTrackInfoRender (some ti) style data).1.showProgress =
          style.showProgress) ∧
      (artworkIsDataImage ti.artwork = true →
        (computeTrackInfoRender (some ti) style data).1.icon = ti.artwork ∧
        (computeTrackInfoRender (some ti) style data).1.showIcon =
          some (data.showArtwork != some false)) ∧
      (artworkIsDataImage ti.artwork = false →
        (computeTrackInfoRender (some ti) style data).1.icon =
          some "mdi mdi-music" ∧
        (computeTrackInfoRender (some ti) style data).1.showIcon =
          some true)) := by
  refine ⟨rfl, ?_, ?_⟩
  · intro h
    simp only [computeTrackInfoRender]
    rw [if_neg (by simp [h])]
  · intro h
    refine ⟨by simp [computeTrackInfoRender, h], ?_, ?_, ?_, ?_⟩
    · intro hp
      by_cases ha : artworkIsDataImage ti.artwork = true <;>
        simp [computeTrackInfoRender, h, hp, ha]
    · intro hp
      by_cases ha : artworkIsDataImage ti.artwork = true <;>
        simp [computeTrackInfoRender, h, hp, ha]
    · intro ha
      by_cases hp : data.showProgress = some false <;>
        simp [computeTrackInfoRender, h, hp, ha]
    · intro ha
      by_cases hp : data.showProgress = some false <;>
        simp [computeTrackInfoRender, h, hp, ha]

theorem render_spec_witness :
    (computeTrackInfoRender
        (some { title := some "Song", artist := some "Artist",
                artwork := some "data:image/png;base64,QQ",
                position := 30, duration := 120,
                isPlaying := some true, isRunning := some true })
        {} {}).2 = "Song\nArtist" ∧
    (computeTrackInfoRender
        (some { title := some "Song", artist := some "Artist",
                artwork := some "data:image/png;base64,QQ",
                position := 30, duration := 120,
                isPlaying := some true, isRunning := some true })
        {} {}).1.progress = some (1 / 4) ∧
    (computeTrackInfoRender
        (some { title := some "Song", artist := some "Artist",
                artwork := some "data:image/png;base64,QQ",
                position := 30, duration := 120,
                isPlaying := some true, isRunning := some true })
        {} {}).1.icon = some "data:image/png;base64,QQ" := by
  have h := (render_spec
    { title := some "Song", artist := some "Artist",
      artwork := some "data:image/png;base64,QQ",
      position := 30, duration := 120,
      isPlaying := some true, isRunning := some true }
    {} {}).2.2 (by decide)
  refine ⟨h.1, ?_, (h.2.2.2.1 (by decide)).1⟩
  have hp := (h.2.1 (by decide)).1
  rw [hp]
  norm_num

/-! ## Claim theorems: play/pause key provisioning (`plugin.js`) -/

/-- C9 (failing input): on a `plugin.alive` event carrying a key with the
play/pause component id (declared `multiState` with three states in the
manifest), the handler registers the key and clears stale timers but emits
no draw or state push and schedules no timer at all — the switch in
`plugin.js` has a case only for the track-info component id, so the claimed
immediate play/pause state computation and recurring refresh never happen. -/
theorem playPause_key_not_provisioned :
    handlePluginAlive
        { cache := initialTrackCache, updateIntervals := [],
          keyData := [], connectedDevices := [] }
        "SN-1"
        [{ uid := "key-1", cid := PLUGIN_UUID ++ ".playPause", title := "",
           style := {}, data := {} }]
        { updateRate := 3000, probe := ⟨some "42", 10, 200, true, true⟩,
          fetch := .ok ⟨"T", "A", "B", "W"⟩, now := 0 } =
      ({ cache := initialTrackCache, updateIntervals := [],
         keyData := [("key-1",
           { uid := "key-1", cid := PLUGIN_UUID ++ ".playPause", title := "",
             style := {}, data := {} })],
         connectedDevices := ["SN-1"] },
       []) := by
  decide

end AppleMusic
